import Mathlib

/-!
Shallow embedding of `src/Kitsune.js` (KitsuneParser): a pluggable
argument-parsing engine with a registry of named type descriptors and a
positional `parse` algorithm.

Modelling conventions:
* JS values in the parser's domain are `Value`: string tokens, integer
  numbers, `NaN` and `undefined` (the result of out-of-range indexing or
  of reading an absent object property).  Boxed `String`/`Number`
  wrapper objects, floats, and object-valued tokens are outside the
  domain the engine is used on and are not modelled.
* JS exceptions become `Except KError`; `KError.typeError` is the raw
  runtime `TypeError` raised by calling a method on `undefined`.
* Numeric string conversion (`Number`, used by `isNaN`) and `parseInt`
  are modelled on the decimal-integer fragment (optional sign, decimal
  digits, no whitespace/hex/float forms), which covers every token the
  engine's built-in `number` type is exercised with here.
-/

namespace Kitsune

/-- A JS value in the domain handled by the parser. -/
inductive Value where
  | str (s : String)
  | num (n : Int)
  | nan
  | undefined
deriving Repr, DecidableEq

/-- The option bag (`otherOptions`) forwarded verbatim to `check`/`exec`. -/
abbrev Options := List (String × Value)

/-- `String(v)`: JS string conversion of a domain value. -/
def jsToString : Value → String
  | .str s => s
  | .num n => toString n
  | .nan => "NaN"
  | .undefined => "undefined"

/-- Digit list to natural number, most significant first. -/
def digitsToNat (cs : List Char) : Nat :=
  cs.foldl (fun a c => a * 10 + (c.toNat - 48)) 0

/-- `Number(s)` on the decimal-integer fragment: `""` converts to `0`,
an optional sign followed by one or more digits converts to that
integer, anything else is `NaN` (`none`). -/
def jsStringToNumber (s : String) : Option Int :=
  match s.toList with
  | [] => some 0
  | cs =>
    let signRest : Bool × List Char :=
      match cs with
      | '-' :: r => (true, r)
      | '+' :: r => (false, r)
      | r => (false, r)
    if signRest.2 ≠ [] ∧ signRest.2.all Char.isDigit then
      some (if signRest.1 then -(digitsToNat signRest.2 : Int) else (digitsToNat signRest.2 : Int))
    else
      none

/-- JS `isNaN(v)`: converts to number, tests for `NaN`. -/
def jsIsNaN : Value → Bool
  | .num _ => false
  | .nan => true
  | .str s => (jsStringToNumber s).isNone
  | .undefined => true

/-- `parseInt(v)`: convert to string, read an optional sign and the
longest leading digit run; `NaN` when no digits are found. -/
def jsParseInt (v : Value) : Value :=
  let cs := (jsToString v).toList
  let signRest : Bool × List Char :=
    match cs with
    | '-' :: r => (true, r)
    | '+' :: r => (false, r)
    | r => (false, r)
  let ds := signRest.2.takeWhile Char.isDigit
  if ds.isEmpty then .nan
  else .num (if signRest.1 then -(digitsToNat ds : Int) else (digitsToNat ds : Int))

/-- `typeof v === 'string'` (no boxed `String` objects in the domain). -/
def isTypeofString : Value → Bool
  | .str _ => true
  | _ => false

/-- `typeof v === 'number'` (`NaN` is a number; no boxed `Number`
objects in the domain). -/
def isTypeofNumber : Value → Bool
  | .num _ => true
  | .nan => true
  | _ => false

/-- A registered type descriptor (`KitsuneParserType`). -/
structure KitsuneParserType where
  name : String
  info : Option String
  check : Value → Options → Bool
  exec : Value → Options → Value

/-- The built-in `string` descriptor:
`check: val => typeof val === 'string' || val instanceof String`,
`exec: val => String(val)`. -/
def stringType : KitsuneParserType where
  name := "string"
  info := some "String"
  check := fun v _ => isTypeofString v
  exec := fun v _ => .str (jsToString v)

/-- The built-in `number` descriptor:
`check: val => !isNaN(val) || typeof val === 'number' || val instanceof Number`,
`exec: val => parseInt(val)`. -/
def numberType : KitsuneParserType where
  name := "number"
  info := some "Number"
  check := fun v _ => !jsIsNaN v || isTypeofNumber v
  exec := fun v _ => jsParseInt v

/-- The parser state: the `types` Collection, an insertion-ordered map
from type name to descriptor. -/
structure KitsuneParser where
  types : List (String × KitsuneParserType)

/-- `new KitsuneParser()`: registry holding the two built-ins. -/
def KitsuneParser.init : KitsuneParser :=
  ⟨[("string", stringType), ("number", numberType)]⟩

/-- `Collection.set(k, v)`: overwrite in place when the key exists,
append otherwise. -/
def collectionSet (ts : List (String × KitsuneParserType)) (k : String)
    (v : KitsuneParserType) : List (String × KitsuneParserType) :=
  if ts.any (fun e => e.1 == k) then
    ts.map (fun e => if e.1 == k then (k, v) else e)
  else
    ts ++ [(k, v)]

/-- Errors raised by the parser.  `argError` is
`KitsuneParserArgumentError (value, index, type, message)`,
`messageError` is `KitsuneParserMessageError`, and `typeError` is the
raw runtime `TypeError` from invoking a method on `undefined` — it
carries no structured value/position/type detail. -/
inductive TypeSpec where
  | single (t : String)
  | union (ts : List String)
deriving Repr, DecidableEq

/-- A JS value appearing in results and error payloads: either one
value or an array of values (a fixed-count window). -/
inductive JValue where
  | one (v : Value)
  | arr (vs : List Value)
deriving Repr, DecidableEq

inductive KError where
  | argError (value : JValue) (index : Int) (type : Option TypeSpec) (message : Option String)
  | messageError (message : String)
  | typeError
deriving Repr, DecidableEq

/-- `findType(type)`: `this.types.find((_v, key) => type === key)` —
first entry (in insertion order) whose key equals `type`; the
descriptor is returned, `undefined` (`none`) when absent. -/
def KitsuneParser.findType (p : KitsuneParser) (t : String) : Option KitsuneParserType :=
  (p.types.find? (fun e => t == e.1)).map (fun e => e.2)

/-- JS `===` between a string map key and the argument passed to
`Collection.delete` in `removeType` — the looked-up descriptor object,
or `undefined`.  A string is never identical to an object or to
`undefined`, so this is constantly `false`. -/
def keyEqDeleteArg (_k : String) (_arg : Option KitsuneParserType) : Bool := false

/-- `removeType(type)`: looks the descriptor up by name and calls
`this.types.delete(findedType)` — deleting by the descriptor *object*
(not the name key), so the Collection removes every entry whose key is
`===` that object. -/
def KitsuneParser.removeType (p : KitsuneParser) (t : String) : KitsuneParser :=
  { p with types := p.types.filter (fun e => !keyEqDeleteArg e.1 (p.findType t)) }

/-- The constructor arguments of `addType` — each field may be absent. -/
structure TypeInit where
  name : Option String
  info : Option String
  check : Option (Value → Options → Bool)
  exec : Option (Value → Options → Value)

/-- JS falsiness of the `name` argument: missing, or the empty string. -/
def nameFalsy : Option String → Bool
  | none => true
  | some s => s == ""

/-- `addType({name, info, exec, check})`: rejected outright with a
`KitsuneParserMessageError` when `!name || !exec || !check`; otherwise
`types.set(name, new KitsuneParserType(...))`.  The `getD` defaults
below are never used: the guard guarantees every field is present. -/
def KitsuneParser.addType (p : KitsuneParser) (a : TypeInit) : Except KError KitsuneParser :=
  if nameFalsy a.name || a.exec.isNone || a.check.isNone then
    .error (.messageError "Cannot add type. No name, execution or checker.")
  else
    .ok { p with
          types := collectionSet p.types (a.name.getD "")
            ⟨a.name.getD "", a.info, a.check.getD (fun _ _ => false),
              a.exec.getD (fun _ _ => .undefined)⟩ }

/-- The object `parseType` returns: `{ value }` when the check passed
(its `check` field is `undefined`), `{ check: false }` when it failed
(its `value` field is `undefined`). -/
inductive PTResult where
  | value (v : Value)
  | failedCheck
deriving Repr, DecidableEq

/-- Reading `.value` off a `parseType` result. -/
def PTResult.valueField : PTResult → Value
  | .value v => v
  | .failedCheck => .undefined

/-- `result.check !== undefined`. -/
def PTResult.checkDefined : PTResult → Bool
  | .value _ => false
  | .failedCheck => true

/-- `parseType(typeName, val, options)`: looks the type up; when the
name is unregistered, `type.check(...)` is a method call on `undefined`
and raises a raw `TypeError`. -/
def KitsuneParser.parseType (p : KitsuneParser) (tn : String) (v : Value) (o : Options) :
    Except KError PTResult :=
  match p.findType tn with
  | none => .error .typeError
  | some t => .ok (if t.check v o then .value (t.exec v o) else .failedCheck)

/-- One element of the usage schema. -/
structure UsageSlot where
  type : TypeSpec
  required : Option Bool
  count : Option Nat
  otherOptions : Options := []

/-- JS truthiness of the `count` field: absent or `0` is falsy. -/
def countTruthy : Option Nat → Bool
  | none => false
  | some n => n != 0

/-- JS truthiness of the `required` field: only `true` is truthy. -/
def requiredTruthy : Option Bool → Bool
  | some b => b
  | none => false

/-- JS property access `arg.required` on a token value: `undefined`
for the primitive values (strings, numbers, `NaN` — primitives are
boxed on property access and have no `required` property), but a raw
`TypeError` when the token itself is `undefined`. -/
def Value.requiredField : Value → Except KError (Option Bool)
  | .undefined => .error .typeError
  | _ => .ok none

/-- `args.map(arg => arg.required)` with exception propagation: an
`undefined` token makes the property access throw. -/
def requiredArrayOf : List Value → Except KError (List (Option Bool))
  | [] => .ok []
  | v :: vs =>
    match v.requiredField with
    | .error e => .error e
    | .ok r =>
      match requiredArrayOf vs with
      | .error e => .error e
      | .ok rs => .ok (r :: rs)

/-- The helper `findLastIndex(array, predicate)` from the source:
index of the last element satisfying the predicate, `-1` otherwise. -/
def findLastIndex (l : List (Option Bool)) (p : Option Bool → Bool) : Int :=
  match l.reverse.findIdx? p with
  | some i => (l.length : Int) - 1 - (i : Int)
  | none => -1

/-- `args.slice(usageIndex, usageIndex + count)`. -/
def window (ts : List Value) (idx c : Nat) : List Value :=
  (ts.drop idx).take c

/-- `argToParse`: the token window of the current slot — a slice when
`count` is truthy, the single token at the cursor otherwise. -/
def argWindow (ts : List Value) (idx : Nat) (u : UsageSlot) : JValue :=
  if countTruthy u.count then .arr (window ts idx (u.count.getD 0))
  else .one (ts.getD idx .undefined)

/-- `argToParse.map(arg => this.parseType(typeName, arg, otherOptions))`
with exception propagation: the first thrown error aborts the map. -/
def mapParseType (p : KitsuneParser) (tn : String) (o : Options) :
    List Value → Except KError (List PTResult)
  | [] => .ok []
  | v :: vs =>
    match p.parseType tn v o with
    | .error e => .error e
    | .ok r =>
      match mapParseType p tn o vs with
      | .error e => .error e
      | .ok rs => .ok (r :: rs)

/-- The per-slot result: `parseType`'s object for a single token, an
array of such objects for a `count` window. -/
inductive SlotResult where
  | single (r : PTResult)
  | multi (rs : List PTResult)

/-- `indices[0]`: position of the first per-token outcome whose `check`
field is defined (i.e. whose check failed). -/
def firstFailIdx : List PTResult → Option Nat
  | [] => none
  | r :: rs => if r.checkDefined then some 0 else (firstFailIdx rs).map (fun i => i + 1)

/-- The type-resolution part of the slot body.  For a scalar `type`,
`parseType` is applied to the single token or mapped over the window.
For a list `type`, `type.some(...)` is run: `parseType` always returns
a truthy object (even `{check: false}`), so the first candidate always
sets `result` and `isParsed`; only an *empty* candidate list leaves
`isParsed` false and throws `KitsuneParserArgumentError(argToParse,
usageIndex, type)`. -/
def resolveSlot (p : KitsuneParser) (ts : List Value) (idx : Nat) (u : UsageSlot) :
    Except KError SlotResult :=
  let runOne (tn : String) : Except KError SlotResult :=
    if countTruthy u.count then
      match mapParseType p tn u.otherOptions (window ts idx (u.count.getD 0)) with
      | .error e => .error e
      | .ok rs => .ok (.multi rs)
    else
      match p.parseType tn (ts.getD idx .undefined) u.otherOptions with
      | .error e => .error e
      | .ok r => .ok (.single r)
  match u.type with
  | .single tn => runOne tn
  | .union [] => .error (.argError (argWindow ts idx u) (idx : Int) (some u.type) none)
  | .union (tn :: _) => runOne tn

/-- The whole `usage.forEach` body for one slot: resolve the type(s),
run the array-result checks (first failing token, then count
mismatch), then the single-result required check, then push the
coerced value(s) and advance the cursor. -/
def slotStep (p : KitsuneParser) (ts : List Value) (idx : Nat) (u : UsageSlot) :
    Except KError (JValue × Nat) :=
  match resolveSlot p ts idx u with
  | .error e => .error e
  | .ok (.multi rs) =>
    match firstFailIdx rs with
    | some i =>
      .error (.argError (.one ((window ts idx (u.count.getD 0)).getD i .undefined))
        ((idx : Int) + (i : Int)) (some u.type) none)
    | none =>
      if rs.length < u.count.getD 0 then
        .error (.argError (argWindow ts idx u) (idx : Int) (some u.type)
          (some "Passed arguments count is not equal to type count."))
      else
        .ok (.arr (rs.map PTResult.valueField), idx + u.count.getD 0)
  | .ok (.single r) =>
    if r.checkDefined && requiredTruthy u.required then
      .error (.argError (.one (ts.getD idx .undefined)) (idx : Int) (some u.type) none)
    else
      .ok (.one r.valueField, idx + 1)

/-- The `usage.forEach` loop: one pushed entry per slot, first error
aborts the whole parse. -/
def parseGo (p : KitsuneParser) (ts : List Value) :
    Nat → List UsageSlot → Except KError (List JValue)
  | _, [] => .ok []
  | idx, u :: us =>
    match slotStep p ts idx u with
    | .error e => .error e
    | .ok (v, idx') =>
      match parseGo p ts idx' us with
      | .error e => .error e
      | .ok rest => .ok (v :: rest)

/-- `parse(args, usage)`.  The pre-validation of the optional-slot
rules reads `args.map(arg => arg.required)` — the *token* array, not
the schema — so with defined primitive tokens `requiredArray` is all
`undefined` and neither schema error can fire, while an `undefined`
token makes the map itself throw a raw `TypeError`.  (The leading
`Array.isArray(usage)` guard is vacuous here: `usage` is a list by
type.)  Then the forEach loop consumes tokens slot by slot. -/
def KitsuneParser.parse (p : KitsuneParser) (ts : List Value) (usage : List UsageSlot) :
    Except KError (List JValue) :=
  match requiredArrayOf ts with
  | .error e => .error e
  | .ok requiredArray =>
    let len := (requiredArray.filter (fun v => v == some false)).length
    let pos := findLastIndex requiredArray (fun v => v == some false)
    if len > 1 then
      .error (.argError (.one .undefined) pos none
        (some "Non-required argument must be only one."))
    else if pos < (requiredArray.length : Int) - 1 ∧ pos ≠ -1 then
      .error (.argError (.one .undefined) pos none
        (some "Non-required argument must be at the end of the arguments array."))
    else
      parseGo p ts 0 usage

/-! ### Helper lemmas -/

/-- When no token is the value `undefined`, every `arg.required`
access yields `undefined`: the map succeeds with an all-`none` list. -/
theorem requiredArrayOf_ok (ts : List Value) (h : Value.undefined ∉ ts) :
    requiredArrayOf ts = .ok (List.replicate ts.length none) := by
  induction ts with
  | nil => rfl
  | cons v vs ih =>
    have hvs : Value.undefined ∉ vs := fun hm => h (List.mem_cons_of_mem v hm)
    cases v with
    | undefined => exact absurd (List.mem_cons_self _ _) h
    | str s => simp [requiredArrayOf, Value.requiredField, ih hvs, List.replicate_succ]
    | num n => simp [requiredArrayOf, Value.requiredField, ih hvs, List.replicate_succ]
    | nan => simp [requiredArrayOf, Value.requiredField, ih hvs, List.replicate_succ]

/-- When some token is the value `undefined`, the `arg.required` map
throws the raw `TypeError` (the first such access aborts). -/
theorem requiredArrayOf_error (ts : List Value) (h : Value.undefined ∈ ts) :
    requiredArrayOf ts = .error .typeError := by
  induction ts with
  | nil => cases h
  | cons v vs ih =>
    cases v with
    | undefined => rfl
    | str s =>
      have hm : Value.undefined ∈ vs := by
        rcases List.mem_cons.mp h with h1 | h1
        · exact absurd h1 (by simp)
        · exact h1
      simp [requiredArrayOf, Value.requiredField, ih hm]
    | num n =>
      have hm : Value.undefined ∈ vs := by
        rcases List.mem_cons.mp h with h1 | h1
        · exact absurd h1 (by simp)
        · exact h1
      simp [requiredArrayOf, Value.requiredField, ih hm]
    | nan =>
      have hm : Value.undefined ∈ vs := by
        rcases List.mem_cons.mp h with h1 | h1
        · exact absurd h1 (by simp)
        · exact h1
      simp [requiredArrayOf, Value.requiredField, ih hm]

theorem findIdx?_eq_none_of_all_false {l : List (Option Bool)} {p : Option Bool → Bool}
    (h : ∀ a ∈ l, p a = false) : l.findIdx? p = none := by
  rw [List.findIdx?_eq_none_iff]
  intro a ha
  exact h a ha

/-- The `=== false` filter keeps nothing of an all-`none` list. -/
theorem replicate_none_filter_nil (n : Nat) :
    (List.replicate n (none : Option Bool)).filter (fun v => v == some false) = [] := by
  induction n with
  | zero => rfl
  | succ n ih => simp [List.replicate_succ, ih]

/-- `findLastIndex` of the `=== false` predicate over an all-`none`
list is `-1`. -/
theorem replicate_none_findLastIndex (n : Nat) :
    findLastIndex (List.replicate n (none : Option Bool)) (fun v => v == some false) = -1 := by
  unfold findLastIndex
  rw [findIdx?_eq_none_of_all_false]
  intro a ha
  rw [List.mem_reverse] at ha
  rw [List.eq_of_mem_replicate ha]
  rfl

/-- With tokens that are all defined values the schema pre-validation
never fires: `parse` is the forEach loop from cursor `0`. -/
theorem parse_eq_parseGo (p : KitsuneParser) (ts : List Value) (us : List UsageSlot)
    (h : Value.undefined ∉ ts) :
    p.parse ts us = parseGo p ts 0 us := by
  simp [KitsuneParser.parse, requiredArrayOf_ok ts h, replicate_none_filter_nil,
    replicate_none_findLastIndex]

/-- When the named type resolves to `d` and every token in the list
passes `d.check`, the exception-propagating map returns one `{value}`
object per token. -/
theorem mapParseType_all_ok (p : KitsuneParser) (tn : String) (d : KitsuneParserType)
    (o : Options) (vs : List Value) (hf : p.findType tn = some d)
    (hall : ∀ v ∈ vs, d.check v o = true) :
    mapParseType p tn o vs = .ok (vs.map (fun v => .value (d.exec v o))) := by
  induction vs with
  | nil => rfl
  | cons v vs ih =>
    have hv : d.check v o = true := hall v (List.mem_cons_self v vs)
    unfold mapParseType
    rw [ih (fun w hw => hall w (List.mem_cons_of_mem v hw))]
    simp [KitsuneParser.parseType, hf, hv]

/-- A list of `{value}` objects has no index with a defined `check`. -/
theorem firstFailIdx_map_value (vs : List Value) (f : Value → Value) :
    firstFailIdx (vs.map (fun v => .value (f v))) = none := by
  induction vs with
  | nil => rfl
  | cons v vs ih => simpa [firstFailIdx, PTResult.checkDefined] using ih

/-- The forEach loop pushes exactly one entry per schema slot. -/
theorem parseGo_length (p : KitsuneParser) (ts : List Value) :
    ∀ (us : List UsageSlot) (idx : Nat) (r : List JValue),
      parseGo p ts idx us = .ok r → r.length = us.length := by
  intro us
  induction us with
  | nil =>
    intro idx r h
    simp only [parseGo] at h
    cases h
    rfl
  | cons u us ih =>
    intro idx r h
    simp only [parseGo] at h
    split at h
    next e hs => simp at h
    next jv idx' hs =>
      split at h
      next e2 hg => simp at h
      next rest hg =>
        simp only [Except.ok.injEq] at h
        subst h
        simp [ih idx' rest hg]

/-! ### Claim theorems -/

/-- C1: the claim fails on the code.  `parse` computes `requiredArray`
from `args` — the *token* array — not from `usage`, and primitive
tokens have no `required` property, so with string tokens neither rule
can fire: a schema with two `required: false` slots raises no
arity error (first conjunct) and a schema whose single
`required: false` slot is non-trailing raises no order error (second
conjunct); both parses consume the tokens and return values. -/
theorem c1_schema_validation_reads_tokens :
    KitsuneParser.init.parse [.str "a", .str "b"]
      [⟨.single "string", some false, none, []⟩, ⟨.single "string", some false, none, []⟩]
      = .ok [.one (.str "a"), .one (.str "b")] ∧
    KitsuneParser.init.parse [.str "a", .str "b"]
      [⟨.single "string", some false, none, []⟩, ⟨.single "string", some true, none, []⟩]
      = .ok [.one (.str "a"), .one (.str "b")] :=
  ⟨rfl, rfl⟩

/-- C2: the claim fails on the code.  In the union loop, `parseType`
always returns a truthy object (it is `{check: false}` when the check
fails), so the *first* candidate always wins.  The token `'abc'` fails
the first candidate `number` and would pass the later candidate
`string`, yet `parse` raises `KitsuneParserArgumentError` instead of
coercing via `string`. -/
theorem c2_first_union_candidate_always_wins :
    KitsuneParser.init.parse [.str "abc"]
      [⟨.union ["number", "string"], some true, none, []⟩]
      = .error (.argError (.one (.str "abc")) 0
          (some (.union ["number", "string"])) none) :=
  rfl

/-- C3: the claim fails on the code.  `removeType` calls
`this.types.delete(findedType)` with the looked-up descriptor *object*
rather than the name key; no string key is `===` that object, so the
registry is left unchanged and `findType` still returns the built-in
`string` descriptor after `removeType('string')`. -/
theorem c3_removeType_removes_nothing :
    KitsuneParser.init.removeType "string" = KitsuneParser.init ∧
    ((KitsuneParser.init.removeType "string").findType "string").isSome = true :=
  ⟨rfl, rfl⟩

/-- C4 counterexample: with schema
`[{type:'string', required:true}, {type:'string', required:false}]`
and tokens `['only']`, `parse` succeeds but returns *two* entries —
the optional slot's failed check pushes `result.value`, which is
`undefined` — so the result does not contain exactly one value. -/
theorem c4_counterexample :
    KitsuneParser.init.parse [.str "only"]
      [⟨.single "string", some true, none, []⟩, ⟨.single "string", some false, none, []⟩]
      = .ok [.one (.str "only"), .one .undefined] ∧
    [JValue.one (.str "only"), .one .undefined].length ≠ 1 :=
  ⟨rfl, by decide⟩

/-- C4 (amended): for a single-token slot with `required === false`
whose check fails, `parse` succeeds without error, but the slot is not
omitted: the value `undefined` is appended at the slot's position (so
the concrete example returns `['only', undefined]`, one entry per
slot). -/
theorem c4_optional_failed_check_pushes_undefined :
    (∀ (p : KitsuneParser) (tn : String) (d : KitsuneParserType) (ts : List Value)
        (i : Nat) (o : Options),
        p.findType tn = some d → d.check (ts.getD i .undefined) o = false →
        slotStep p ts i ⟨.single tn, some false, none, o⟩ = .ok (.one .undefined, i + 1)) ∧
    KitsuneParser.init.parse [.str "only"]
      [⟨.single "string", some true, none, []⟩, ⟨.single "string", some false, none, []⟩]
      = .ok [.one (.str "only"), .one .undefined] := by
  constructor
  · intro p tn d ts i o hf hc
    simp only [List.getD, List.get?_eq_getElem?] at hc
    simp [slotStep, resolveSlot, countTruthy, KitsuneParser.parseType, hf, hc,
      requiredTruthy, PTResult.checkDefined, PTResult.valueField]
  · rfl

theorem c4_optional_failed_check_pushes_undefined_witness :
    KitsuneParser.init.findType "string" = some stringType ∧
    stringType.check (([] : List Value).getD 0 .undefined) [] = false ∧
    slotStep KitsuneParser.init [] 0 ⟨.single "string", some false, none, []⟩
      = .ok (.one .undefined, 1) :=
  ⟨rfl, rfl, c4_optional_failed_check_pushes_undefined.1 _ _ _ _ _ _ rfl rfl⟩

/-- C5 counterexample: the concrete input raises the count-mismatch
`KitsuneParserArgumentError` as claimed, but its literal message is
`'Passed arguments count is not equal to type count.'`, not the
claimed `"argument count does not match declared count."`. -/
theorem c5_counterexample :
    KitsuneParser.init.parse [.str "a", .str "b"]
      [⟨.single "string", some true, some 3, []⟩]
      = .error (.argError (.arr [.str "a", .str "b"]) 0 (some (.single "string"))
          (some "Passed arguments count is not equal to type count.")) ∧
    "Passed arguments count is not equal to type count." ≠
      "argument count does not match declared count." :=
  ⟨rfl, by decide⟩

/-- C5 (amended): for every fixed-count slot reached with fewer than
`count` tokens remaining at the cursor, all of which pass their
checks, the slot body raises the count-mismatch error citing the
slot's cursor position, the attempted type, and the literal message
`'Passed arguments count is not equal to type count.'` (first
conjunct, at an arbitrary cursor position); at top level, for a token
array of defined values (an `undefined` token would already crash the
pre-validation's `arg.required` access) and a single such slot,
`parse` raises exactly this error (second conjunct). -/
theorem c5_count_mismatch :
    (∀ (p : KitsuneParser) (tn : String) (d : KitsuneParserType) (ts : List Value)
        (idx c : Nat) (r : Option Bool) (o : Options),
        p.findType tn = some d → 1 ≤ c → ts.length - idx < c →
        (∀ v ∈ window ts idx c, d.check v o = true) →
        slotStep p ts idx ⟨.single tn, r, some c, o⟩
          = .error (.argError (.arr (window ts idx c)) (idx : Int) (some (.single tn))
              (some "Passed arguments count is not equal to type count."))) ∧
    (∀ (p : KitsuneParser) (tn : String) (d : KitsuneParserType) (ts : List Value)
        (c : Nat) (r : Option Bool) (o : Options),
        Value.undefined ∉ ts → p.findType tn = some d → 1 ≤ c → ts.length < c →
        (∀ v ∈ ts, d.check v o = true) →
        p.parse ts [⟨.single tn, r, some c, o⟩]
          = .error (.argError (.arr ts) 0 (some (.single tn))
              (some "Passed arguments count is not equal to type count."))) := by
  have hA : ∀ (p : KitsuneParser) (tn : String) (d : KitsuneParserType) (ts : List Value)
      (idx c : Nat) (r : Option Bool) (o : Options),
      p.findType tn = some d → 1 ≤ c → ts.length - idx < c →
      (∀ v ∈ window ts idx c, d.check v o = true) →
      slotStep p ts idx ⟨.single tn, r, some c, o⟩
        = .error (.argError (.arr (window ts idx c)) (idx : Int) (some (.single tn))
            (some "Passed arguments count is not equal to type count.")) := by
    intro p tn d ts idx c r o hf hc hlen hall
    have hc0 : (c != 0) = true := by
      simp [Nat.one_le_iff_ne_zero.mp hc]
    have hlenw : (window ts idx c).length < c := by
      unfold window
      rw [List.length_take, List.length_drop]
      exact lt_of_le_of_lt (Nat.min_le_right _ _) hlen
    have hres : resolveSlot p ts idx ⟨.single tn, r, some c, o⟩
        = .ok (.multi ((window ts idx c).map (fun v => PTResult.value (d.exec v o)))) := by
      simp [resolveSlot, countTruthy, hc0,
        mapParseType_all_ok p tn d o (window ts idx c) hf hall]
    unfold slotStep
    rw [hres]
    simp [firstFailIdx_map_value, argWindow, countTruthy, hc0, hlenw]
  refine ⟨hA, ?_⟩
  intro p tn d ts c r o hts hf hc hlen hall
  have hw0 : window ts 0 c = ts := by
    unfold window
    simpa using List.take_of_length_le (Nat.le_of_lt hlen)
  have h1 := hA p tn d ts 0 c r o hf hc (by simpa using hlen) (by rw [hw0]; exact hall)
  rw [hw0] at h1
  rw [parse_eq_parseGo p ts _ hts]
  simp [parseGo, h1]

theorem c5_count_mismatch_witness :
    (KitsuneParser.init.findType "string" = some stringType ∧
     1 ≤ 3 ∧ ([Value.str "a", .str "b"]).length - 0 < 3 ∧
     (∀ v ∈ window [Value.str "a", .str "b"] 0 3, stringType.check v [] = true) ∧
     slotStep KitsuneParser.init [.str "a", .str "b"] 0
        ⟨.single "string", some true, some 3, []⟩
       = .error (.argError (.arr (window [Value.str "a", .str "b"] 0 3)) 0
           (some (.single "string"))
           (some "Passed arguments count is not equal to type count."))) ∧
    (Value.undefined ∉ [Value.str "a", .str "b"] ∧
     KitsuneParser.init.parse [.str "a", .str "b"]
        [⟨.single "string", some true, some 3, []⟩]
       = .error (.argError (.arr [.str "a", .str "b"]) 0 (some (.single "string"))
           (some "Passed arguments count is not equal to type count.")))  :=
  ⟨⟨rfl, by decide, by decide, by decide,
     c5_count_mismatch.1 KitsuneParser.init "string" stringType [.str "a", .str "b"] 0 3
       (some true) [] rfl (by decide) (by decide) (by decide)⟩,
   ⟨by decide,
     c5_count_mismatch.2 KitsuneParser.init "string" stringType [.str "a", .str "b"] 3
       (some true) [] (by decide) rfl (by decide) (by decide) (by decide)⟩⟩

/-- C6: `addType` rejects a descriptor whose `name` is missing or
empty, or whose `check` or `exec` is missing, with the
`KitsuneParserMessageError` and without touching the registry (the
error is returned instead of an updated parser state). -/
theorem c6_addType_rejects_malformed (p : KitsuneParser) (a : TypeInit)
    (h : nameFalsy a.name = true ∨ a.check = none ∨ a.exec = none) :
    p.addType a = .error (.messageError "Cannot add type. No name, execution or checker.") := by
  unfold KitsuneParser.addType
  rcases h with h | h | h
  · simp [h]
  · simp [h]
  · simp [h]

theorem c6_addType_rejects_malformed_witness :
    (nameFalsy (TypeInit.mk (some "vec") none none (some (fun v _ => v))).name = true ∨
     (TypeInit.mk (some "vec") none none (some (fun v _ => v))).check = none ∨
     (TypeInit.mk (some "vec") none none (some (fun v _ => v))).exec = none) ∧
    KitsuneParser.init.addType (TypeInit.mk (some "vec") none none (some (fun v _ => v)))
      = .error (.messageError "Cannot add type. No name, execution or checker.") :=
  ⟨Or.inr (Or.inl rfl),
    c6_addType_rejects_malformed KitsuneParser.init _ (Or.inr (Or.inl rfl))⟩

/-- C7: with the built-in descriptors,
`parse(['hello','42'], [{type:'string',required:true},{type:'number',required:true}])`
returns `['hello', 42]`: the number token is coerced to the integer
`42` by `parseInt`. -/
theorem c7_builtins_example :
    KitsuneParser.init.parse [.str "hello", .str "42"]
      [⟨.single "string", some true, none, []⟩, ⟨.single "number", some true, none, []⟩]
      = .ok [.one (.str "hello"), .one (.num 42)] :=
  rfl

/-- C8: `parse(['abc'], [{type:'number', required:true}])` raises the
`KitsuneParserArgumentError` carrying value `'abc'`, position `0` and
type `'number'` (and no extra message). -/
theorem c8_number_validation_error :
    KitsuneParser.init.parse [.str "abc"] [⟨.single "number", some true, none, []⟩]
      = .error (.argError (.one (.str "abc")) 0 (some (.single "number")) none) :=
  rfl

/-- C9: when a single-token slot names a type absent from the
registry, `findType` returns `undefined` and `parseType` invokes
`.check` on it, so `parse` fails with the raw runtime `TypeError` —
which carries no structured value/position/type detail — rather than
any of the structured parser errors. -/
theorem c9_unknown_type_raw_type_error (p : KitsuneParser) (tn : String)
    (ts : List Value) (r : Option Bool) (o : Options)
    (hf : p.findType tn = none) :
    p.parse ts [⟨.single tn, r, none, o⟩] = .error .typeError := by
  by_cases hts : Value.undefined ∈ ts
  · simp [KitsuneParser.parse, requiredArrayOf_error ts hts]
  · rw [parse_eq_parseGo p ts _ hts]
    simp [parseGo, slotStep, resolveSlot, countTruthy, KitsuneParser.parseType, hf]

theorem c9_unknown_type_raw_type_error_witness :
    KitsuneParser.init.findType "bogus" = none ∧
    KitsuneParser.init.parse [.str "x"] [⟨.single "bogus", some true, none, []⟩]
      = .error .typeError :=
  ⟨rfl, c9_unknown_type_raw_type_error KitsuneParser.init "bogus" [.str "x"]
    (some true) [] rfl⟩

/-- C10: a slot that omits `required` entirely is treated as optional
(`undefined` is falsy): a failed check on a single-token slot raises
no error and pushes the value `undefined` at the slot's position
(first conjunct), and every successful parse returns exactly one entry
per schema slot (second conjunct). -/
theorem c10_omitted_required_is_optional :
    (∀ (p : KitsuneParser) (tn : String) (d : KitsuneParserType) (ts : List Value)
        (i : Nat) (o : Options),
        p.findType tn = some d → d.check (ts.getD i .undefined) o = false →
        slotStep p ts i ⟨.single tn, none, none, o⟩ = .ok (.one .undefined, i + 1)) ∧
    (∀ (p : KitsuneParser) (ts : List Value) (us : List UsageSlot) (r : List JValue),
        p.parse ts us = .ok r → r.length = us.length) := by
  constructor
  · intro p tn d ts i o hf hc
    simp only [List.getD, List.get?_eq_getElem?] at hc
    simp [slotStep, resolveSlot, countTruthy, KitsuneParser.parseType, hf, hc,
      requiredTruthy, PTResult.checkDefined, PTResult.valueField]
  · intro p ts us r h
    by_cases hts : Value.undefined ∈ ts
    · simp [KitsuneParser.parse, requiredArrayOf_error ts hts] at h
    · rw [parse_eq_parseGo p ts us hts] at h
      exact parseGo_length p ts us 0 r h

theorem c10_omitted_required_is_optional_witness :
    (KitsuneParser.init.findType "string" = some stringType ∧
     stringType.check (([Value.num 5] : List Value).getD 0 .undefined) [] = false ∧
     slotStep KitsuneParser.init [Value.num 5] 0 ⟨.single "string", none, none, []⟩
       = .ok (.one .undefined, 1)) ∧
    (KitsuneParser.init.parse [Value.num 5] [⟨.single "string", none, none, []⟩]
       = .ok [.one .undefined] ∧
     ([JValue.one .undefined]).length = ([⟨.single "string", none, none, []⟩] : List UsageSlot).length) :=
  ⟨⟨rfl, rfl, c10_omitted_required_is_optional.1 _ _ _ _ _ _ rfl rfl⟩,
   ⟨rfl, c10_omitted_required_is_optional.2 KitsuneParser.init [Value.num 5]
      [⟨.single "string", none, none, []⟩] [.one .undefined] rfl⟩⟩

end Kitsune
